import Mathlib

/-!
Verification development for the conversation-orchestration engine of the
talk_to_db repository (src/talk_to_db/modules/orchestrator.py,
src/talk_to_db/modules/llm.py, src/talk_to_db/types.py).

The embedding models Python values that can appear in the orchestrator's
message history (`self.messages`): plain strings, dictionaries (function-call
shaped replies), and None.  External collaborators are modelled explicitly:

* `generate_reply` (the language-model backend) is an oracle: each call
  consumes the next element of a reply stream carried in the state
  (`OState.replies`); an exhausted stream yields Python `None`, which is a
  value the real backend can also return.
* the injected validation predicate `validate_results_func` is modelled as an
  `Option Bool` (`none` models the default `None`, whose invocation raises a
  TypeError); the state counts how many times it has been invoked
  (`OState.validateCalls`) so that "called exactly once" is observable.
* the tokenizer used by `llm.count_tokens` (tiktoken) is an external
  deterministic function, passed as a parameter `tk : String → Nat`.
* `spy_on_agents` only writes the chat log to a file (an external sink) and
  never changes orchestrator state, so it is a no-op here; the `time.time`
  timestamp of a `Chat` record comes from an external clock and is omitted.

Exceptions raised by the Python code (assert failures, TypeError, NameError,
IndexError, the constructor's Exception) are modelled with `PyErr` /
`RunOutcome.raised`.
-/

mutual

/-- A Python value as it can occur in the orchestrator's message history:
a plain string, a dict (e.g. a function-call shaped reply), or None. -/
inductive PyVal where
  | str (s : String)
  | pnone
  | dict (entries : PyDict)

/-- The entries of a Python dict with string keys and `PyVal` values,
as an association list (keys are unique in the states we build). -/
inductive PyDict where
  | nil
  | cons (key : String) (val : PyVal) (rest : PyDict)

end

/-- The quote character used by Python `repr` for strings (U+0027). -/
def pyQuote : String := String.singleton (Char.ofNat 39)

mutual

/-- Python `repr` of a value (ignoring escaping, which never occurs in the
values considered here): strings are quoted, `None` prints as `None`,
dicts print as `\x7b...\x7d` with repr-ed keys and values. -/
def pyReprV : PyVal → String
  | PyVal.str s => pyQuote ++ s ++ pyQuote
  | PyVal.pnone => "None"
  | PyVal.dict es => "\x7b" ++ pyReprEntries es ++ "\x7d"

/-- Python `repr` of the comma-separated entries of a dict. -/
def pyReprEntries : PyDict → String
  | PyDict.nil => ""
  | PyDict.cons k v PyDict.nil => pyQuote ++ k ++ pyQuote ++ ": " ++ pyReprV v
  | PyDict.cons k v (PyDict.cons k2 v2 rest) =>
      pyQuote ++ k ++ pyQuote ++ ": " ++ pyReprV v ++ ", " ++
        pyReprEntries (PyDict.cons k2 v2 rest)

end

/-- Python `str` of a value: a string is itself; `str` of a dict or of
`None` coincides with `repr`. -/
def pyStr : PyVal → String
  | PyVal.str s => s
  | v => pyReprV v

/-- Python truthiness of a value: non-empty strings and non-empty dicts are
truthy, the empty string, the empty dict and `None` are falsy. -/
def truthy : PyVal → Bool
  | PyVal.str s => s != ""
  | PyVal.pnone => false
  | PyVal.dict PyDict.nil => false
  | PyVal.dict (PyDict.cons _ _ _) => true

/-- Python `d.get(key, None)` restricted to a present/absent answer. -/
def pyDictGet : PyDict → String → Option PyVal
  | PyDict.nil, _ => Option.none
  | PyDict.cons k v rest, key => if k == key then some v else pyDictGet rest key

/-- Python `d.get(key, None)`: a missing key yields `None`. -/
def pyDictGetD (d : PyDict) (key : String) : PyVal :=
  (pyDictGet d key).getD PyVal.pnone

/-- `v.get(key, None)` on a value known to be a dict (on non-dicts this is
never invoked by the source; it returns `None` here). -/
def pyGet (v : PyVal) (key : String) : PyVal :=
  match v with
  | PyVal.dict d => pyDictGetD d key
  | _ => PyVal.pnone

/-- One record of the audit chat log: `talk_to_db.types.Chat`.  The `created`
timestamp (external clock, `time.time`) is omitted. -/
structure Chat where
  from_name : String
  to_name : String
  message : String
deriving DecidableEq

/-- An autogen agent as seen by the orchestrator: its name and the names of
its registered functions (the orchestrator only ever reads
`agent.name` and `len(agent._function_map)`). -/
structure Agent where
  name : String
  functionMap : List String

/-- `talk_to_db.types.ConversationResult`.  All six fields are required
(`error_message` has no default), which is why the orchestrator's
construction sites - which pass only the first five - raise a TypeError. -/
structure ConversationResult where
  success : Bool
  messages : List PyVal
  cost : ℚ
  tokens : Nat
  last_message_str : PyVal
  error_message : String

/-- A Python exception as raised by the modelled code. -/
inductive PyErr where
  | exception (msg : String)
  | assertionError
  | typeError (msg : String)
  | nameError (msg : String)
  | indexError
deriving DecidableEq

/-- Mutable state of one `Orchestrator` instance, plus the oracle stream for
`generate_reply` and the instrumentation counter for the injected
validation predicate. -/
structure OState where
  messages : List PyVal
  chats : List Chat
  replies : List PyVal
  validateCalls : Nat

/-- The outcome of a conversation method: a returned `ConversationResult`,
Python `None` (the sequential loop falling through without returning), or a
raised exception. -/
inductive RunOutcome where
  | returned (r : ConversationResult)
  | returnedNone
  | raised (e : PyErr)

/-- Observer: is the outcome a raised IndexError? -/
def RunOutcome.indexErr : RunOutcome → Bool
  | RunOutcome.raised PyErr.indexError => true
  | _ => false

/-- Observer: is the outcome a raised AssertionError? -/
def RunOutcome.assertErr : RunOutcome → Bool
  | RunOutcome.raised PyErr.assertionError => true
  | _ => false

/-- `Orchestrator.latest_message`: the last message, `None`-able. -/
def latestMessage (st : OState) : Option PyVal := st.messages.getLast?

/-- The last message as a `PyVal` (Python `None` when the history is empty,
matching what `latest_message` returns there). -/
def latestMessageD (st : OState) : PyVal := (latestMessage st).getD PyVal.pnone

/-- `Orchestrator.last_message_is_dict` (the source indexes `messages[-1]`
directly and would raise on an empty history; every use in the protocols
happens after the history is seeded, and theorems about single steps carry
a non-emptiness hypothesis). -/
def lastMessageIsDict (st : OState) : Bool :=
  match latestMessage st with
  | some (PyVal.dict _) => true
  | _ => false

/-- `Orchestrator.last_message_is_string`. -/
def lastMessageIsString (st : OState) : Bool :=
  match latestMessage st with
  | some (PyVal.str _) => true
  | _ => false

/-- `Orchestrator.last_message_is_func_call`: a dict whose
`"function_call"` entry is truthy. -/
def lastMessageIsFuncCall (st : OState) : Bool :=
  lastMessageIsDict st && truthy (pyGet (latestMessageD st) "function_call")

/-- `Orchestrator.last_message_is_content`: a dict whose `"content"` entry
is truthy. -/
def lastMessageIsContent (st : OState) : Bool :=
  lastMessageIsDict st && truthy (pyGet (latestMessageD st) "content")

/-- `Orchestrator.last_message_always_string`. -/
def lastMessageAlwaysString (st : OState) : PyVal :=
  match latestMessage st with
  | Option.none => PyVal.str ""
  | some last =>
      if lastMessageIsContent st then
        match last with
        | PyVal.dict d => (pyDictGet d "content").getD (PyVal.str "")
        | _ => PyVal.str ""
      else PyVal.str (pyStr last)

/-- The next reply the external model will produce (head of the oracle
stream; `None` when the stream is exhausted). -/
def nextReply (st : OState) : PyVal := st.replies.headD PyVal.pnone

/-- One call of `agent.generate_reply(sender=...)`: consume the next oracle
reply. -/
def generateReply (st : OState) : PyVal × OState :=
  match st.replies with
  | [] => (PyVal.pnone, st)
  | r :: rest => (r, { st with replies := rest })

/-- `Orchestrator.send_message`: delegate the send to the agent (external),
and append a `Chat` record whose content is `str(message)`. -/
def sendMessage (a b : Agent) (message : PyVal) (st : OState) : OState :=
  { st with chats := st.chats ++ [{ from_name := a.name, to_name := b.name,
                                    message := pyStr message }] }

/-- `Orchestrator.add_message`. -/
def addMessage (m : PyVal) (st : OState) : OState :=
  { st with messages := st.messages ++ [m] }

/-- `Orchestrator.has_functions`: `len(agent._function_map) > 0`. -/
def hasFunctions (a : Agent) : Bool := a.functionMap.length > 0

/-- `Orchestrator.basic_chat`: send, obtain the receiver's reply, append the
reply to the message history. -/
def basicChat (a b : Agent) (message : PyVal) (st : OState) : OState :=
  let st1 := sendMessage a b message st
  let (reply, st2) := generateReply st1
  addMessage reply st2

/-- `Orchestrator.memory_chat`: send, obtain the reply, record the reply as
sent from the receiver to itself, append the reply to the message history. -/
def memoryChat (a b : Agent) (message : PyVal) (st : OState) : OState :=
  let st1 := sendMessage a b message st
  let (reply, st2) := generateReply st1
  let st3 := sendMessage b b reply st2
  addMessage reply st3

/-- `Orchestrator.self_function_chat`: send to self, obtain the reply,
append it (the send-back of the reply is commented out in the source). -/
def selfFunctionChat (a : Agent) (message : PyVal) (st : OState) : OState :=
  let st1 := sendMessage a a message st
  let (reply, st2) := generateReply st1
  addMessage reply st2

/-- `Orchestrator.function_chat`: a basic chat of the sender with itself,
then `assert self.last_message_is_content` (an AssertionError when the
reply is not a dict with truthy content), then a basic chat relaying
`self.latest_message` - the whole reply value - to the receiver. -/
def functionChat (a b : Agent) (message : PyVal) (st : OState) :
    OState × Option PyErr :=
  let st1 := basicChat a a message st
  if lastMessageIsContent st1 then
    (basicChat a b (latestMessageD st1) st1, Option.none)
  else (st1, some PyErr.assertionError)

/-- The body of one iteration of `sequential_conversation`'s loop, before
the final-pair wrap-up: the two independent `if` statements dispatching on
the shape of the last message. -/
def seqStep (agA agB : Agent) (st : OState) : OState × Option PyErr :=
  let st1 := if lastMessageIsString st then
      basicChat agA agB (latestMessageD st) st
    else st
  if lastMessageIsFuncCall st1 && hasFunctions agA then
    functionChat agA agB (latestMessageD st1) st1
  else (st1, Option.none)

/-- The wrap-up of the final loop iteration of `sequential_conversation`:
optional terminal self-invocation, the call of the injected validation
predicate, and the `ConversationResult(...)` construction, which raises a
TypeError because the required `error_message` field is not passed (the
cost computation preceding it is pure and its value is discarded by the
raise). -/
def seqFinal (agB : Agent) (validate : Option Bool) (st : OState) :
    OState × RunOutcome :=
  let st1 := if hasFunctions agB then
      selfFunctionChat agB (latestMessageD st) st
    else st
  match validate with
  | Option.none =>
      (st1, RunOutcome.raised (PyErr.typeError "NoneType object is not callable"))
  | some _ =>
      let st2 := { st1 with validateCalls := st1.validateCalls + 1 }
      (st2, RunOutcome.raised
        (PyErr.typeError "ConversationResult missing required argument error_message"))

/-- The loop of `sequential_conversation`: `for idx, agent in
enumerate(self.agents)` with `agent_a = agents[idx]` (the enumerated
element) and `agent_b = agents[idx + 1]` (an IndexError when out of range),
returning inside the loop at `idx == len(agents) - 2`.  The first component
of the result counts executed loop iterations (the per-iteration banner
prints of the source). -/
def seqLoop (agents : List Agent) (validate : Option Bool) :
    List Agent → Nat → OState → Nat → Nat × OState × RunOutcome
  | [], _idx, st, iters => (iters, st, RunOutcome.returnedNone)
  | agA :: restAg, idx, st, iters =>
    match agents[idx + 1]? with
    | Option.none => (iters + 1, st, RunOutcome.raised PyErr.indexError)
    | some agB =>
      match seqStep agA agB st with
      | (st1, some e) => (iters + 1, st1, RunOutcome.raised e)
      | (st1, Option.none) =>
        if idx = agents.length - 2 then
          let (st2, out) := seqFinal agB validate st1
          (iters + 1, st2, out)
        else seqLoop agents validate restAg (idx + 1) st1 (iters + 1)

/-- `Orchestrator.sequential_conversation`: seed the history with the
prompt, then run the loop.  Returns (number of executed loop iterations,
final state, outcome). -/
def sequentialConversation (agents : List Agent) (validate : Option Bool)
    (prompt : String) (replies : List PyVal) : Nat × OState × RunOutcome :=
  let st0 : OState :=
    { messages := [PyVal.str prompt], chats := [], replies := replies,
      validateCalls := 0 }
  seqLoop agents validate agents 0 st0 0

/-- The body of one iteration of `broadcast_conversation`'s loop: a memory
chat seeded with the original prompt when the last message is a string,
then the function-call dispatch with sender = receiver = the iterated
agent. -/
def broadcastStep (bAgent ag : Agent) (prompt : String) (st : OState) :
    OState × Option PyErr :=
  let st1 := if lastMessageIsString st then
      memoryChat bAgent ag (PyVal.str prompt) st
    else st
  if lastMessageIsFuncCall st1 && hasFunctions ag then
    functionChat ag ag (latestMessageD st1) st1
  else (st1, Option.none)

/-- The loop of `broadcast_conversation`: iterate over `self.agents[1:]`. -/
def broadcastLoop (bAgent : Agent) :
    List Agent → String → OState → OState × Option PyErr
  | [], _prompt, st => (st, Option.none)
  | ag :: rest, prompt, st =>
    match broadcastStep bAgent ag prompt st with
    | (st1, some e) => (st1, some e)
    | (st1, Option.none) => broadcastLoop bAgent rest prompt st1

/-- `Orchestrator.broadcast_conversation`: seed the history, run the loop
over the non-broadcaster agents, call the validation predicate, then raise
a NameError at `tokens=tokens` in the `ConversationResult(...)` call (the
local variable is named `token`; the cost computation before it is pure and
discarded by the raise). -/
def broadcastConversation (agents : List Agent) (validate : Option Bool)
    (prompt : String) (replies : List PyVal) : OState × RunOutcome :=
  let st0 : OState :=
    { messages := [PyVal.str prompt], chats := [], replies := replies,
      validateCalls := 0 }
  match agents with
  | [] => (st0, RunOutcome.raised PyErr.indexError)
  | bAgent :: restAg =>
    match broadcastLoop bAgent restAg prompt st0 with
    | (st1, some e) => (st1, RunOutcome.raised e)
    | (st1, Option.none) =>
      match validate with
      | Option.none =>
          (st1, RunOutcome.raised (PyErr.typeError "NoneType object is not callable"))
      | some _ =>
          let st2 := { st1 with validateCalls := st1.validateCalls + 1 }
          (st2, RunOutcome.raised (PyErr.nameError "name tokens is not defined"))

/-- `Orchestrator.__init__`: assigns the fields (empty history, empty chat
log) and raises `Exception("Orchestrator needs at least two agents")` when
fewer than two agents are supplied. -/
def orchestratorInit (agents : List Agent) : Except PyErr OState :=
  let st : OState :=
    { messages := [], chats := [], replies := [], validateCalls := 0 }
  if agents.length < 2 then
    Except.error (PyErr.exception "Orchestrator needs at least two agents")
  else Except.ok st

/-- The loop body of `Orchestrator.get_messages_as_string`, accumulating
into `messages_as_str`: skip `None`; for a dict take
`d.get("content") or d.get("function_call")` and skip the entry when that
is falsy, else append its `str`; append `str(message)` otherwise. -/
def messagesAsStringAux (acc : String) : List PyVal → String
  | [] => acc
  | m :: rest =>
    match m with
    | PyVal.pnone => messagesAsStringAux acc rest
    | PyVal.dict d =>
        let contentFromDict := pyDictGetD d "content"
        let funcCallFromDict := pyDictGetD d "function_call"
        let content := if truthy contentFromDict then contentFromDict
                       else funcCallFromDict
        if truthy content then messagesAsStringAux (acc ++ pyStr content) rest
        else messagesAsStringAux acc rest
    | PyVal.str s => messagesAsStringAux (acc ++ pyStr (PyVal.str s)) rest

/-- `Orchestrator.get_messages_as_string`. -/
def getMessagesAsString (st : OState) : String :=
  messagesAsStringAux "" st.messages

/-- Python's banker's rounding to the nearest integer (`round(q)`), on
exact rationals: ties go to the even neighbour. -/
def roundHalfEven (q : ℚ) : ℤ :=
  if q - Int.floor q = 1 / 2 then
    (if Int.floor q % 2 = 0 then Int.floor q else Int.floor q + 1)
  else round q

/-- Python `round(q, 2)` on exact rationals. -/
def pyRound2 (q : ℚ) : ℚ := (roundHalfEven (q * 100) : ℚ) / 100

/-- The cost formula of `llm.estimate_price_and_tokens`:
`round(tokens / 1000 * 0.06, 2)`. -/
def costOfTokens (tokens : Nat) : ℚ :=
  pyRound2 ((tokens : ℚ) / 1000 * (6 / 100))

/-- `llm.estimate_price_and_tokens`, parametrised by the external tokenizer
`tk` (`llm.count_tokens` delegates to tiktoken): returns
`(estimated_cost, tokens)`. -/
def estimatePriceAndTokens (tk : String → Nat) (text : String) : ℚ × Nat :=
  let tokens := tk text
  let estimatedCost := pyRound2 ((tokens : ℚ) / 1000 * (6 / 100))
  (estimatedCost, tokens)

/-- `Orchestrator.get_cost_and_tokens`: the estimator applied to
`get_messages_as_string` (the message history, not the chat log). -/
def getCostAndTokens (tk : String → Nat) (st : OState) : ℚ × Nat :=
  estimatePriceAndTokens tk (getMessagesAsString st)

/-! ## Spec-side definitions

Definitions in this section are written from the wording of the
specification / claims (not from the source), for comparison with the
source-derived definitions above. -/

/-- Spec-side reading of the flattening rule for one transcript entry:
prefer a truthy `"content"` field, fall back to a truthy
`"function_call"` field, skip the entry if neither is truthy, skip `None`
entries; a plain string contributes itself. -/
def specFlattenEntry : PyVal → Option String
  | PyVal.pnone => Option.none
  | PyVal.str s => some s
  | PyVal.dict d =>
      if truthy (pyDictGetD d "content") then some (pyStr (pyDictGetD d "content"))
      else if truthy (pyDictGetD d "function_call") then
        some (pyStr (pyDictGetD d "function_call"))
      else Option.none

/-- Spec-side reading: the concatenation, in order, of the flattened
transcript entries. -/
def specTranscriptConcat : List PyVal → String
  | [] => ""
  | m :: rest => ((specFlattenEntry m).getD "") ++ specTranscriptConcat rest

/-- Spec-side reading of "the concatenation of every ChatRecord content
field of the chat log": the chat log's `message` fields joined in order. -/
def specChatLogConcat (st : OState) : String :=
  String.join (st.chats.map (fun c => c.message))

/-- Spec-side reading of "a tool-invocation request matched by a tool of
the current sender": the name inside the request's `"function_call"`
payload. -/
def specRequestedToolName : PyVal → Option String
  | PyVal.dict d =>
      match pyDictGet d "function_call" with
      | some (PyVal.dict f) =>
          match pyDictGet f "name" with
          | some (PyVal.str n) => some n
          | _ => Option.none
      | _ => Option.none
  | _ => Option.none

/-- Spec-side reading: the sender exposes a tool whose name matches the
pending tool-invocation request. -/
def specSenderMatchesTool (v : PyVal) (a : Agent) : Bool :=
  match specRequestedToolName v with
  | some n => a.functionMap.contains n
  | Option.none => false

/-! ## Helper lemmas -/

theorem basicChat_chats (a b : Agent) (m : PyVal) (st : OState) :
    (basicChat a b m st).chats = st.chats ++
      [{ from_name := a.name, to_name := b.name, message := pyStr m }] := by
  unfold basicChat sendMessage generateReply addMessage
  cases st.replies <;> rfl

theorem memoryChat_chats (a b : Agent) (m : PyVal) (st : OState) :
    (memoryChat a b m st).chats = st.chats ++
      [{ from_name := a.name, to_name := b.name, message := pyStr m },
       { from_name := b.name, to_name := b.name, message := pyStr (nextReply st) }] := by
  cases hr : st.replies <;>
    simp [memoryChat, sendMessage, generateReply, addMessage, nextReply, hr]

theorem selfFunctionChat_chats (a : Agent) (m : PyVal) (st : OState) :
    (selfFunctionChat a m st).chats = st.chats ++
      [{ from_name := a.name, to_name := a.name, message := pyStr m }] := by
  unfold selfFunctionChat sendMessage generateReply addMessage
  cases st.replies <;> rfl

theorem basicChat_messages (a b : Agent) (m : PyVal) (st : OState) :
    (basicChat a b m st).messages = st.messages ++ [nextReply st] := by
  unfold basicChat sendMessage generateReply addMessage nextReply
  cases st.replies <;> rfl

theorem functionChat_err (a b : Agent) (m : PyVal) (st : OState) (e : PyErr)
    (h : (functionChat a b m st).2 = some e) : e = PyErr.assertionError := by
  unfold functionChat at h
  by_cases hc : lastMessageIsContent (basicChat a a m st) = true
  · rw [if_pos hc] at h
    simp at h
  · rw [if_neg hc] at h
    simp at h
    exact h.symm

theorem seqStep_err (agA agB : Agent) (st : OState) (e : PyErr)
    (h : (seqStep agA agB st).2 = some e) : e = PyErr.assertionError := by
  unfold seqStep at h
  by_cases hg : (lastMessageIsFuncCall
      (if lastMessageIsString st then basicChat agA agB (latestMessageD st) st else st) &&
        hasFunctions agA) = true
  · rw [if_pos hg] at h
    exact functionChat_err _ _ _ _ _ h
  · rw [if_neg hg] at h
    simp at h

theorem seqFinal_out (agB : Agent) (validate : Option Bool) (st : OState) :
    (seqFinal agB validate st).2.indexErr = false ∧
    (seqFinal agB validate st).2.assertErr = false := by
  unfold seqFinal
  cases validate <;> simp [RunOutcome.indexErr, RunOutcome.assertErr]

theorem seqLoop_spec (agents : List Agent) (validate : Option Bool) :
    ∀ (k idx iters : Nat) (rest : List Agent) (st : OState),
      rest.length + idx = agents.length → idx + k + 2 = agents.length →
      (seqLoop agents validate rest idx st iters).2.2.indexErr = false ∧
      (seqLoop agents validate rest idx st iters).1 ≤ iters + k + 1 ∧
      ((seqLoop agents validate rest idx st iters).2.2.assertErr = false →
        (seqLoop agents validate rest idx st iters).1 = iters + k + 1) := by
  intro k
  induction k with
  | zero =>
    intro idx iters rest st hlen hidx
    match rest with
    | [] => simp at hlen; omega
    | agA :: rest1 =>
      have hlt : idx + 1 < agents.length := by omega
      have hget : agents[idx + 1]? = some (agents[idx + 1]) :=
        List.getElem?_eq_getElem hlt
      rcases hstep : seqStep agA agents[idx + 1] st with ⟨st1, e⟩
      cases e with
      | some err =>
        have herr := seqStep_err agA agents[idx + 1] st err (by rw [hstep])
        subst herr
        simp [seqLoop, hget, hstep, RunOutcome.indexErr, RunOutcome.assertErr]
      | none =>
        have hfin : idx = agents.length - 2 := by omega
        rcases hF : seqFinal agents[idx + 1] validate st1 with ⟨st2, out⟩
        have hfo := seqFinal_out agents[idx + 1] validate st1
        rw [hF] at hfo
        have hred : seqLoop agents validate (agA :: rest1) idx st iters =
            (iters + 1, st2, out) := by
          simp only [seqLoop, hget, hstep]
          rw [if_pos hfin, hF]
        rw [hred]
        exact ⟨hfo.1, le_refl _, fun _ => rfl⟩
  | succ k ih =>
    intro idx iters rest st hlen hidx
    match rest with
    | [] => simp at hlen; omega
    | agA :: rest1 =>
      have hlt : idx + 1 < agents.length := by omega
      have hget : agents[idx + 1]? = some (agents[idx + 1]) :=
        List.getElem?_eq_getElem hlt
      rcases hstep : seqStep agA agents[idx + 1] st with ⟨st1, e⟩
      cases e with
      | some err =>
        have herr := seqStep_err agA agents[idx + 1] st err (by rw [hstep])
        subst herr
        refine ⟨?_, ?_, ?_⟩
        · simp [seqLoop, hget, hstep, RunOutcome.indexErr]
        · simp only [seqLoop, hget, hstep]
          omega
        · intro ha
          simp [seqLoop, hget, hstep, RunOutcome.assertErr] at ha
      | none =>
        have hne : ¬(idx = agents.length - 2) := by omega
        have hlen1 : rest1.length + (idx + 1) = agents.length := by
          simp at hlen; omega
        have hidx1 : (idx + 1) + k + 2 = agents.length := by omega
        have ihr := ih (idx + 1) (iters + 1) rest1 st1 hlen1 hidx1
        have hred : seqLoop agents validate (agA :: rest1) idx st iters =
            seqLoop agents validate rest1 (idx + 1) st1 (iters + 1) := by
          simp only [seqLoop, hget, hstep]
          rw [if_neg hne]
        rw [hred]
        exact ⟨ihr.1, by omega, fun ha => by have := ihr.2.2 ha; omega⟩

theorem messagesAsStringAux_eq (msgs : List PyVal) :
    ∀ acc, messagesAsStringAux acc msgs = acc ++ specTranscriptConcat msgs := by
  induction msgs with
  | nil => intro acc; simp [messagesAsStringAux, specTranscriptConcat]
  | cons m rest ih =>
    intro acc
    cases m with
    | pnone => simp [messagesAsStringAux, specTranscriptConcat, specFlattenEntry, ih]
    | str s =>
      simp [messagesAsStringAux, specTranscriptConcat, specFlattenEntry, ih, pyStr,
        String.append_assoc]
    | dict d =>
      simp only [messagesAsStringAux, specTranscriptConcat, specFlattenEntry]
      by_cases hc : truthy (pyDictGetD d "content")
      · simp [hc, ih, String.append_assoc]
      · by_cases hf : truthy (pyDictGetD d "function_call")
        · simp [hc, hf, ih, String.append_assoc]
        · simp [hc, hf, ih]

theorem getMessagesAsString_eq (st : OState) :
    getMessagesAsString st = specTranscriptConcat st.messages := by
  have h := messagesAsStringAux_eq st.messages ""
  simpa [getMessagesAsString] using h

theorem roundHalfEven_intCast (n : ℤ) : roundHalfEven (n : ℚ) = n := by
  unfold roundHalfEven
  rw [Int.floor_intCast]
  simp only [sub_self]
  rw [if_neg (by norm_num)]
  exact round_intCast n

theorem roundHalfEven_le_add_half (q : ℚ) : (roundHalfEven q : ℚ) ≤ q + 1 / 2 := by
  unfold roundHalfEven
  split
  case isTrue h1 =>
    split
    case isTrue h2 => linarith
    case isFalse h2 => push_cast; linarith
  case isFalse h1 =>
    have habs := abs_sub_round q
    rw [abs_le] at habs
    linarith [habs.1, habs.2]

theorem sub_half_le_roundHalfEven (q : ℚ) : q - 1 / 2 ≤ (roundHalfEven q : ℚ) := by
  unfold roundHalfEven
  split
  case isTrue h1 =>
    split
    case isTrue h2 => linarith
    case isFalse h2 => push_cast; linarith
  case isFalse h1 =>
    have habs := abs_sub_round q
    rw [abs_le] at habs
    linarith [habs.1, habs.2]

theorem roundHalfEven_mono {q r : ℚ} (h : q ≤ r) :
    roundHalfEven q ≤ roundHalfEven r := by
  by_contra hc
  push_neg at hc
  have h1 : ((roundHalfEven r : ℚ) + 1 : ℚ) ≤ (roundHalfEven q : ℚ) := by
    exact_mod_cast Int.add_one_le_iff.mpr hc
  have h2 := roundHalfEven_le_add_half q
  have h3 := sub_half_le_roundHalfEven r
  have hqr : q = r := le_antisymm h (by linarith)
  subst hqr
  exact lt_irrefl _ hc

theorem costOfTokens_mono {a b : ℕ} (h : a ≤ b) : costOfTokens a ≤ costOfTokens b := by
  unfold costOfTokens pyRound2
  have hab : (a : ℚ) ≤ (b : ℚ) := by exact_mod_cast h
  have hx : ((a : ℚ) / 1000 * (6 / 100) * 100) ≤ ((b : ℚ) / 1000 * (6 / 100) * 100) := by
    linarith
  have hr := roundHalfEven_mono hx
  have hrq : ((roundHalfEven ((a : ℚ) / 1000 * (6 / 100) * 100) : ℤ) : ℚ) ≤
      ((roundHalfEven ((b : ℚ) / 1000 * (6 / 100) * 100) : ℤ) : ℚ) := by
    exact_mod_cast hr
  linarith

theorem costOfTokens_zero : costOfTokens 0 = 0 := by
  unfold costOfTokens pyRound2
  have h : ((0 : ℕ) : ℚ) / 1000 * (6 / 100) * 100 = ((0 : ℤ) : ℚ) := by norm_num
  rw [h, roundHalfEven_intCast]
  norm_num

theorem costOfTokens_500 : costOfTokens 500 = 3 / 100 := by
  unfold costOfTokens pyRound2
  have h : ((500 : ℕ) : ℚ) / 1000 * (6 / 100) * 100 = ((3 : ℤ) : ℚ) := by norm_num
  rw [h, roundHalfEven_intCast]
  norm_num

theorem costOfTokens_2000 : costOfTokens 2000 = 12 / 100 := by
  unfold costOfTokens pyRound2
  have h : ((2000 : ℕ) : ℚ) / 1000 * (6 / 100) * 100 = ((12 : ℤ) : ℚ) := by norm_num
  rw [h, roundHalfEven_intCast]
  norm_num

/-! ## Concrete fixtures used by the claim theorems -/

/-- A tool-less agent named A. -/
def agentA : Agent := { name := "A", functionMap := [] }

/-- A tool-less agent named B. -/
def agentB : Agent := { name := "B", functionMap := [] }

/-- An agent named A exposing one registered function `f`. -/
def agentAF : Agent := { name := "A", functionMap := ["f"] }

/-- An agent named A exposing only a registered function `bar`. -/
def agentABar : Agent := { name := "A", functionMap := ["bar"] }

/-- A function-call shaped reply: a dict with a truthy `"function_call"`. -/
def fcMsg : PyVal := PyVal.dict (PyDict.cons "function_call" (PyVal.str "f") PyDict.nil)

/-- A content-carrying reply: a dict whose `"content"` is the text `done`. -/
def contMsg : PyVal := PyVal.dict (PyDict.cons "content" (PyVal.str "done") PyDict.nil)

/-- A tool-invocation request naming the tool `foo`. -/
def fooReq : PyVal :=
  PyVal.dict (PyDict.cons "function_call"
    (PyVal.dict (PyDict.cons "name" (PyVal.str "foo") PyDict.nil)) PyDict.nil)

/-- A state whose last message is a plain string and whose oracle replies
make the follow-up checks of one sequential step fire twice. -/
def stC3 : OState :=
  { messages := [PyVal.str "hi"], chats := [],
    replies := [fcMsg, contMsg, PyVal.str "fin"], validateCalls := 0 }

/-- A state whose last message requests the tool `foo` (which the sender
`agentABar` does not expose) and whose oracle reply is a plain string. -/
def stC6 : OState :=
  { messages := [fooReq], chats := [], replies := [PyVal.str "x"], validateCalls := 0 }

/-- A state whose last message is a pending tool invocation and whose oracle
reply is the plain string `ok` (a textual result). -/
def stC4a : OState :=
  { messages := [fcMsg], chats := [], replies := [PyVal.str "ok"], validateCalls := 0 }

/-- Like `stC4a` but the oracle reply is a dict carrying content `done`. -/
def stC4b : OState :=
  { messages := [fcMsg], chats := [], replies := [contMsg], validateCalls := 0 }

/-- A state whose last message is Python `None` (neither a string nor a
function-call dict). -/
def stSkip : OState :=
  { messages := [PyVal.pnone], chats := [], replies := [], validateCalls := 0 }

/-- The four participants of the aborting sequential run of claim C5. -/
def c5Agents : List Agent :=
  [agentAF, agentB, { name := "C", functionMap := [] }, { name := "D", functionMap := [] }]

/-- A sequential run with four participants in which the tool-resolution
assertion fails during iteration 0. -/
def c5Run : Nat × OState × RunOutcome :=
  sequentialConversation c5Agents (some true) "go" [fcMsg, PyVal.str "oops"]

/-- The orchestrator state after a completed two-agent sequential run with a
single plain-text reply (used to compare transcript-based and chat-log-based
cost inputs). -/
def c2State : OState :=
  (sequentialConversation [agentA, agentB] (some true) "hi" [PyVal.str "world"]).2.1

/-! ## Claim theorems -/

/-- Claim C1 (code bug, evaluated at the failing input): with two
participants, a plain-text reply and an injected validate returning true,
both protocols do call the injected validate predicate exactly once
(`validateCalls = 1` in the final state), but neither returns a
`ConversationResult`: `sequential_conversation` raises a TypeError because
`ConversationResult` is constructed without its required `error_message`
field, and `broadcast_conversation` raises a NameError at `tokens=tokens`
because its local variable is named `token`. -/
theorem claim_c1_crash :
    sequentialConversation [agentA, agentB] (some true) "hi" [PyVal.str "ok"] =
      (1,
       { messages := [PyVal.str "hi", PyVal.str "ok"],
         chats := [{ from_name := "A", to_name := "B", message := "hi" }],
         replies := [], validateCalls := 1 },
       RunOutcome.raised
         (PyErr.typeError "ConversationResult missing required argument error_message")) ∧
    broadcastConversation [agentA, agentB] (some true) "hi" [PyVal.str "ok"] =
      ({ messages := [PyVal.str "hi", PyVal.str "ok"],
         chats := [{ from_name := "A", to_name := "B", message := "hi" },
                   { from_name := "B", to_name := "B", message := "ok" }],
         replies := [], validateCalls := 1 },
       RunOutcome.raised (PyErr.nameError "name tokens is not defined")) :=
  ⟨rfl, rfl⟩

/-- Claim C2, counterexample: after the two-agent sequential run of
`c2State` (transcript `["hi", "ok written as world"]`, chat log `["hi"]`),
the token count computed by `get_cost_and_tokens` (which reads the
transcript, `self.messages`) differs from the estimator applied to the
concatenation of the chat log's content fields, so the cost/tokens are not
computed from the chat log as the claim states. -/
theorem claim_c2_counterexample :
    (getCostAndTokens String.length c2State).2 ≠
      (estimatePriceAndTokens String.length (specChatLogConcat c2State)).2 := by
  decide

/-- Claim C2 as amended: the token count and cost of a conversation are
computed by applying the estimator to the concatenation of every entry of
the transcript (the message history `self.messages`), in order, where
dict-shaped entries are flattened by preferring a truthy `content` field,
falling back to the `function_call` field, skipping the entry when neither
is truthy, and skipping `None` entries. -/
theorem claim_c2_amended (tk : String → Nat) (st : OState) :
    getCostAndTokens tk st =
      estimatePriceAndTokens tk (specTranscriptConcat st.messages) := by
  unfold getCostAndTokens
  rw [getMessagesAsString_eq]

/-- Claim C3, counterexample: in state `stC3` (last entry a plain string,
oracle replying with a function call and then content), a single sequential
step grows the transcript by three entries - a basic relay (one entry)
followed by a complete tool-resolution exchange (two entries) - so one step
performs two of the claimed actions; and in state `stC6` the step performs
a tool-resolution action (growing the transcript and raising the internal
assertion) although the requested tool `foo` is not among the sender's
registered tools, so the action is not guarded by a matching tool. -/
theorem claim_c3_counterexample :
    (seqStep agentAF agentB stC3).1.messages.length = stC3.messages.length + 3 ∧
    (seqStep agentAF agentB stC3).2 = Option.none ∧
    specSenderMatchesTool (latestMessageD stC6) agentABar = false ∧
    (seqStep agentABar agentB stC6).2 = some PyErr.assertionError ∧
    (seqStep agentABar agentB stC6).1.messages.length = stC6.messages.length + 1 :=
  ⟨rfl, rfl, rfl, rfl, rfl⟩

/-- Claim C3 as amended: each protocol step examines the last transcript
entry twice, once per `if`: a basic relay (sequential) or memory exchange
(broadcast) is performed when the entry at step start is a plain string;
then a tool-resolution exchange is additionally performed when the
(possibly just updated) last entry is a function-call dict and the current
sender has at least one registered tool (tool-name matching is not
checked); when neither test fires, no action is taken and the state is
unchanged. -/
theorem claim_c3_amended (agA agB bA ag : Agent) (prompt : String) (st : OState)
    (_hne : st.messages ≠ []) :
    (lastMessageIsString st = false →
      (lastMessageIsFuncCall st && hasFunctions agA) = false →
      seqStep agA agB st = (st, Option.none)) ∧
    (lastMessageIsString st = false →
      (lastMessageIsFuncCall st && hasFunctions agA) = true →
      seqStep agA agB st = functionChat agA agB (latestMessageD st) st) ∧
    (lastMessageIsString st = true →
      (lastMessageIsFuncCall (basicChat agA agB (latestMessageD st) st) &&
        hasFunctions agA) = false →
      seqStep agA agB st = (basicChat agA agB (latestMessageD st) st, Option.none)) ∧
    (lastMessageIsString st = true →
      (lastMessageIsFuncCall (basicChat agA agB (latestMessageD st) st) &&
        hasFunctions agA) = true →
      seqStep agA agB st =
        functionChat agA agB
          (latestMessageD (basicChat agA agB (latestMessageD st) st))
          (basicChat agA agB (latestMessageD st) st)) ∧
    (lastMessageIsString st = false →
      (lastMessageIsFuncCall st && hasFunctions ag) = false →
      broadcastStep bA ag prompt st = (st, Option.none)) ∧
    (lastMessageIsString st = false →
      (lastMessageIsFuncCall st && hasFunctions ag) = true →
      broadcastStep bA ag prompt st = functionChat ag ag (latestMessageD st) st) ∧
    (lastMessageIsString st = true →
      (lastMessageIsFuncCall (memoryChat bA ag (PyVal.str prompt) st) &&
        hasFunctions ag) = false →
      broadcastStep bA ag prompt st =
        (memoryChat bA ag (PyVal.str prompt) st, Option.none)) ∧
    (lastMessageIsString st = true →
      (lastMessageIsFuncCall (memoryChat bA ag (PyVal.str prompt) st) &&
        hasFunctions ag) = true →
      broadcastStep bA ag prompt st =
        functionChat ag ag
          (latestMessageD (memoryChat bA ag (PyVal.str prompt) st))
          (memoryChat bA ag (PyVal.str prompt) st)) := by
  refine ⟨?_, ?_, ?_, ?_, ?_, ?_, ?_, ?_⟩ <;> intro h1 h2 <;>
    simp [seqStep, broadcastStep, h1, h2]

/-- Witness for the amended claim C3: a concrete skipped step. -/
theorem claim_c3_witness : seqStep agentA agentB stSkip = (stSkip, Option.none) :=
  (claim_c3_amended agentA agentB agentA agentA "p" stSkip
    (List.cons_ne_nil _ _)).1 rfl rfl

/-- Claim C4, counterexample: in `stC4a` the reconciled result of the
sender's self-exchange is the plain string `ok` - a textual result - yet
the assertion fails (AssertionError), contradicting "the assertion does not
fail for any textual result"; and in `stC4b` (reply: a dict with content
`done`) the message relayed to the receiver and recorded in the chat log is
the whole dict's stringification, not the textual content `done`. -/
theorem claim_c4_counterexample :
    (functionChat agentAF agentB fcMsg stC4a).2 = some PyErr.assertionError ∧
    (functionChat agentAF agentB fcMsg stC4b).2 = Option.none ∧
    (functionChat agentAF agentB fcMsg stC4b).1.chats.getLast? =
      some { from_name := "A", to_name := "B", message := pyStr contMsg } ∧
    pyStr contMsg ≠ "done" :=
  ⟨rfl, rfl, rfl, by decide⟩

/-- Claim C4 as amended: in every tool-resolution exchange the sender is
first addressed to itself with the pending tool-invocation message (the
first new chat record is sender-to-sender with that message); the asserted
condition holds exactly when the resulting reply is a dict with truthy
textual content (in particular a plain-string reply fails it, raising
AssertionError); and when it holds, the whole reply message - not its
extracted textual content - is relayed to the receiver via a basic
exchange. -/
theorem claim_c4_amended (a b : Agent) (m : PyVal) (st : OState) :
    ((functionChat a b m st).2 = Option.none ↔
      lastMessageIsContent (basicChat a a m st) = true) ∧
    (lastMessageIsContent (basicChat a a m st) = true →
      functionChat a b m st =
        (basicChat a b (latestMessageD (basicChat a a m st)) (basicChat a a m st),
         Option.none) ∧
      (functionChat a b m st).1.chats =
        st.chats ++
          [{ from_name := a.name, to_name := a.name, message := pyStr m },
           { from_name := a.name, to_name := b.name,
             message := pyStr (latestMessageD (basicChat a a m st)) }]) ∧
    (lastMessageIsContent (basicChat a a m st) = false →
      functionChat a b m st = (basicChat a a m st, some PyErr.assertionError) ∧
      (functionChat a b m st).1.chats =
        st.chats ++
          [{ from_name := a.name, to_name := a.name, message := pyStr m }]) := by
  by_cases hc : lastMessageIsContent (basicChat a a m st) = true
  · refine ⟨?_, ?_, ?_⟩
    · simp [functionChat, hc]
    · intro _
      constructor
      · simp [functionChat, hc]
      · rw [show (functionChat a b m st).1 =
            basicChat a b (latestMessageD (basicChat a a m st)) (basicChat a a m st) by
              simp [functionChat, hc]]
        rw [basicChat_chats, basicChat_chats]
        simp
    · intro hcf
      rw [hc] at hcf
      simp at hcf
  · rw [Bool.not_eq_true] at hc
    refine ⟨?_, ?_, ?_⟩
    · simp [functionChat, hc]
    · intro hcf
      rw [hc] at hcf
      simp at hcf
    · intro _
      constructor
      · simp [functionChat, hc]
      · rw [show (functionChat a b m st).1 = basicChat a a m st by
              simp [functionChat, hc]]
        rw [basicChat_chats]


/-- Witness for the amended claim C4: a concrete tool-resolution exchange
whose reply is a plain string, so the assertion fails. -/
theorem claim_c4_witness :
    functionChat agentAF agentB fcMsg stC4a =
      (basicChat agentAF agentAF fcMsg stC4a, some PyErr.assertionError) ∧
    (functionChat agentAF agentB fcMsg stC4a).1.chats =
      stC4a.chats ++
        [{ from_name := agentAF.name, to_name := agentAF.name, message := pyStr fcMsg }] :=
  (claim_c4_amended agentAF agentB fcMsg stC4a).2.2 rfl

/-- Claim C5, counterexample: in the four-participant run `c5Run` the
tool-resolution assertion fails during iteration 0, so only one loop
iteration executes instead of `N - 1 = 3`, and no result is produced: the
number of relay steps is not `N - 1` "regardless of the shapes of the
messages encountered". -/
theorem claim_c5_counterexample :
    c5Run.1 ≠ c5Agents.length - 1 ∧ c5Run.2.2.assertErr = true :=
  ⟨by decide, rfl⟩

/-- Claim C5 as amended: for every N >= 2, `sequential_conversation` always
terminates and the access to participant `p[i+1]` never goes past the end
of the participant list (no IndexError); it executes at most `N - 1` loop
iterations, and exactly `N - 1` whenever no tool-resolution assertion
aborts the run early (a failing assertion raises AssertionError and ends
the run before the remaining iterations). -/
theorem claim_c5_amended (agents : List Agent) (validate : Option Bool)
    (prompt : String) (replies : List PyVal) (h : 2 ≤ agents.length) :
    (sequentialConversation agents validate prompt replies).2.2.indexErr = false ∧
    (sequentialConversation agents validate prompt replies).1 ≤ agents.length - 1 ∧
    ((sequentialConversation agents validate prompt replies).2.2.assertErr = false →
      (sequentialConversation agents validate prompt replies).1 = agents.length - 1) := by
  have hrfl : sequentialConversation agents validate prompt replies =
      seqLoop agents validate agents 0
        { messages := [PyVal.str prompt], chats := [], replies := replies,
          validateCalls := 0 } 0 := rfl
  rw [hrfl]
  have hs := seqLoop_spec agents validate (agents.length - 2) 0 0 agents
      { messages := [PyVal.str prompt], chats := [], replies := replies,
        validateCalls := 0 } (by omega) (by omega)
  exact ⟨hs.1, by have := hs.2.1; omega, fun ha => by have := hs.2.2 ha; omega⟩

/-- Witness for the amended claim C5: a two-agent run executes exactly one
loop iteration and raises no IndexError. -/
theorem claim_c5_witness :
    (sequentialConversation [agentA, agentB] (some true) "hi"
      [PyVal.str "ok"]).2.2.indexErr = false ∧
    (sequentialConversation [agentA, agentB] (some true) "hi"
      [PyVal.str "ok"]).1 ≤ [agentA, agentB].length - 1 ∧
    ((sequentialConversation [agentA, agentB] (some true) "hi"
      [PyVal.str "ok"]).2.2.assertErr = false →
      (sequentialConversation [agentA, agentB] (some true) "hi"
        [PyVal.str "ok"]).1 = [agentA, agentB].length - 1) :=
  claim_c5_amended [agentA, agentB] (some true) "hi" [PyVal.str "ok"] (by decide)

/-- Claim C6, counterexample: in state `stC6` the latest entry is a
tool-invocation request for `foo`, which is *not* matched by any tool of
the sender (`agentABar` exposes only `bar`), so per the claim the step
should be silently skipped with no error and no transcript growth; instead
the code takes the tool-resolution path (only non-emptiness of the
function map is checked), grows the transcript by one entry and raises an
AssertionError. -/
theorem claim_c6_counterexample :
    lastMessageIsFuncCall stC6 = true ∧
    specSenderMatchesTool (latestMessageD stC6) agentABar = false ∧
    (seqStep agentABar agentB stC6).2 = some PyErr.assertionError ∧
    (seqStep agentABar agentB stC6).1.messages.length = stC6.messages.length + 1 :=
  ⟨rfl, rfl, rfl, rfl⟩

/-- Claim C6 as amended: for every protocol step (sequential or broadcast)
whose latest transcript entry is neither a plain string nor a function-call
dict while the current sender has at least one registered tool (tool-name
matching is not checked by the code), the step is silently skipped: no
error is raised, the state - in particular the transcript - is unchanged,
and the protocol advances; a fully-skipped sequential run still reaches the
validation call exactly once. -/
theorem claim_c6_amended :
    (∀ (agA agB : Agent) (st : OState), st.messages ≠ [] →
      lastMessageIsString st = false →
      (lastMessageIsFuncCall st && hasFunctions agA) = false →
      seqStep agA agB st = (st, Option.none)) ∧
    (∀ (bA ag : Agent) (prompt : String) (st : OState), st.messages ≠ [] →
      lastMessageIsString st = false →
      (lastMessageIsFuncCall st && hasFunctions ag) = false →
      broadcastStep bA ag prompt st = (st, Option.none)) ∧
    (sequentialConversation [agentA, agentB, { name := "C", functionMap := [] }]
        (some true) "hi" [PyVal.pnone]).2.1.validateCalls = 1 := by
  refine ⟨?_, ?_, rfl⟩
  · intro agA agB st _ h1 h2
    simp [seqStep, h1, h2]
  · intro bA ag prompt st _ h1 h2
    simp [broadcastStep, h1, h2]

/-- Witness for the amended claim C6: a concrete skipped broadcast step. -/
theorem claim_c6_witness :
    broadcastStep agentA agentB "p" stSkip = (stSkip, Option.none) :=
  claim_c6_amended.2.1 agentA agentB "p" stSkip (List.cons_ne_nil _ _) rfl rfl

/-- Claim C7: in a broadcast conversation with participants
`[Broadcaster, X, Y, Z]`, none ToolCapable and all replies plain text,
exactly three memory exchanges occur: each sends the original prompt
verbatim from the broadcaster (the chat log shows `B -> X`, `B -> Y`,
`B -> Z`, each carrying `p`), records the participant's reply as sent from
that participant to itself (`X -> X`, `Y -> Y`, `Z -> Z`), and appends the
reply to the transcript; the injected validate is then called once. -/
theorem claim_c7_broadcast (r1 r2 r3 p : String) :
    broadcastConversation
      [{ name := "B", functionMap := [] }, { name := "X", functionMap := [] },
       { name := "Y", functionMap := [] }, { name := "Z", functionMap := [] }]
      (some true) p [PyVal.str r1, PyVal.str r2, PyVal.str r3] =
      ({ messages := [PyVal.str p, PyVal.str r1, PyVal.str r2, PyVal.str r3],
         chats := [{ from_name := "B", to_name := "X", message := p },
                   { from_name := "X", to_name := "X", message := r1 },
                   { from_name := "B", to_name := "Y", message := p },
                   { from_name := "Y", to_name := "Y", message := r2 },
                   { from_name := "B", to_name := "Z", message := p },
                   { from_name := "Z", to_name := "Z", message := r3 }],
         replies := [], validateCalls := 1 },
       RunOutcome.raised (PyErr.nameError "name tokens is not defined")) := rfl

/-- Claim C8: constructing an Orchestrator with fewer than 2 participants
raises immediately (an Exception, before any conversation starts and with
no transcript produced), and constructing it with 2 or more participants
succeeds, with an empty message history and chat log. -/
theorem claim_c8_init (agents : List Agent) :
    (agents.length < 2 →
      orchestratorInit agents =
        Except.error (PyErr.exception "Orchestrator needs at least two agents")) ∧
    (2 ≤ agents.length →
      orchestratorInit agents =
        Except.ok { messages := [], chats := [], replies := [], validateCalls := 0 }) := by
  constructor
  · intro h
    simp [orchestratorInit, h]
  · intro h
    have h2 : ¬(agents.length < 2) := by omega
    simp [orchestratorInit, h2]

/-- Witness for claim C8: one failing and one succeeding construction. -/
theorem claim_c8_witness :
    orchestratorInit [] =
      Except.error (PyErr.exception "Orchestrator needs at least two agents") ∧
    orchestratorInit [agentA, agentB] =
      Except.ok { messages := [], chats := [], replies := [], validateCalls := 0 } :=
  ⟨(claim_c8_init []).1 (by decide), (claim_c8_init [agentA, agentB]).2 (by decide)⟩

/-- Claim C9: the cost estimator is a pure function returning
`(cost, tokens)` with `cost = round(tokens / 1000 * 0.06, 2)` for any token
count; on the empty string (which the external tokenizer maps to 0 tokens)
it returns `(0.0, 0)`; the cost is monotonically non-decreasing in the
token count; and 500 tokens cost 0.03 while 2000 tokens cost 0.12. -/
theorem claim_c9_estimator (tk : String → Nat) (h : tk "" = 0) :
    estimatePriceAndTokens tk "" = (0, 0) ∧
    (∀ a b : Nat, a ≤ b → costOfTokens a ≤ costOfTokens b) ∧
    costOfTokens 500 = 3 / 100 ∧
    costOfTokens 2000 = 12 / 100 ∧
    (∀ text : String, estimatePriceAndTokens tk text = (costOfTokens (tk text), tk text)) := by
  refine ⟨?_, fun a b hab => costOfTokens_mono hab, costOfTokens_500,
    costOfTokens_2000, fun text => rfl⟩
  have he : estimatePriceAndTokens tk "" = (costOfTokens (tk ""), tk "") := rfl
  rw [he, h, costOfTokens_zero]

/-- Witness for claim C9: the estimator at a tokenizer mapping everything
to zero tokens. -/
theorem claim_c9_witness :
    estimatePriceAndTokens (fun _ => 0) "" = (0, 0) :=
  (claim_c9_estimator (fun _ => 0) rfl).1

/-- Claim C10: every record appended to the chat log stores its content as
the plain stringification `str(message)` of whatever was sent - this holds
for the single send of a basic exchange, for both sends of a memory
exchange and for the terminal self-invocation, the only operations with
which the two protocols extend the chat log - and a dict-shaped message is
recorded as its Python repr string (braces, quoted keys and values), never
flattened to its content field. -/
theorem claim_c10_chatlog :
    (∀ (a b : Agent) (m : PyVal) (st : OState),
      (sendMessage a b m st).chats =
        st.chats ++ [{ from_name := a.name, to_name := b.name, message := pyStr m }]) ∧
    (∀ (a b : Agent) (m : PyVal) (st : OState),
      (basicChat a b m st).chats =
        st.chats ++ [{ from_name := a.name, to_name := b.name, message := pyStr m }]) ∧
    (∀ (a b : Agent) (m : PyVal) (st : OState),
      (memoryChat a b m st).chats =
        st.chats ++
          [{ from_name := a.name, to_name := b.name, message := pyStr m },
           { from_name := b.name, to_name := b.name, message := pyStr (nextReply st) }]) ∧
    (∀ (a : Agent) (m : PyVal) (st : OState),
      (selfFunctionChat a m st).chats =
        st.chats ++ [{ from_name := a.name, to_name := a.name, message := pyStr m }]) ∧
    pyStr contMsg =
      "\x7b" ++ pyQuote ++ "content" ++ pyQuote ++ ": " ++
        pyQuote ++ "done" ++ pyQuote ++ "\x7d" ∧
    pyStr contMsg ≠ "done" :=
  ⟨fun _ _ _ _ => rfl, basicChat_chats, memoryChat_chats, selfFunctionChat_chats,
    rfl, by decide⟩
